import Mathlib

/-!
Verification of the frame synchronization and sequencing core of the mcmot
repository (shallow embedding).  Timestamps and wall-clock instants are
embedded as rationals; Python dictionaries keyed by camera id or timestamp
become insertion-ordered association lists with unique keys; Python
exceptions become `Except` results.
-/

/-- Floor of a rational, computed on the normalized numerator and denominator
so that kernel reduction can evaluate it. -/
def ratFloor (q : ℚ) : ℤ := q.num / (q.den : ℤ)

theorem ratFloor_eq_floor (q : ℚ) : ratFloor q = ⌊q⌋ := Rat.floor_def.symm

/-- Python `int(x)` applied to a float truncates toward zero: floor for
non-negative arguments, ceiling for negative ones. -/
def pyTrunc (q : ℚ) : ℤ := if 0 ≤ q then ratFloor q else -ratFloor (-q)

theorem pyTrunc_eq (q : ℚ) : pyTrunc q = if 0 ≤ q then ⌊q⌋ else ⌈q⌉ := by
  unfold pyTrunc
  rcases le_or_lt 0 q with h | h
  · rw [if_pos h, if_pos h, ratFloor_eq_floor]
  · rw [if_neg (not_le.mpr h), if_neg (not_le.mpr h), ratFloor_eq_floor,
      Int.floor_neg, neg_neg]

theorem ratFloor_eval {q : ℚ} {z : ℤ} (h1 : (z : ℚ) ≤ q) (h2 : q < z + 1) :
    ratFloor q = z := by
  rw [ratFloor_eq_floor]
  exact Int.floor_eq_iff.mpr ⟨h1, h2⟩

theorem pyTrunc_eval_nonneg {q : ℚ} {z : ℤ} (h0 : 0 ≤ q) (h1 : (z : ℚ) ≤ q)
    (h2 : q < z + 1) : pyTrunc q = z := by
  rw [pyTrunc_eq, if_pos h0]
  exact Int.floor_eq_iff.mpr ⟨h1, h2⟩

theorem pyTrunc_eval_neg {q : ℚ} {z : ℤ} (h0 : q < 0) (h1 : (z : ℚ) - 1 < q)
    (h2 : q ≤ z) : pyTrunc q = z := by
  rw [pyTrunc_eq, if_neg (not_le.mpr h0)]
  exact Int.ceil_eq_iff.mpr ⟨h1, h2⟩

/-- Python's `abs` on a float. -/
def pyAbs (q : ℚ) : ℚ := if q < 0 then -q else q

theorem pyAbs_eq_abs (q : ℚ) : pyAbs q = |q| := by
  unfold pyAbs
  rcases lt_or_le q 0 with h | h
  · rw [if_pos h, abs_of_neg h]
  · rw [if_neg (not_lt.mpr h), abs_of_nonneg h]

/-- Python exceptions raised by the embedded code paths. -/
inductive PyError
  | typeError
  | keyError
  | zeroDivisionError
  | valueError
deriving DecidableEq

/-- Stable insertion of `x` into a sorted list: `x` lands after every element
`y` with `le y x`, so elements comparing equal keep their original order. -/
def stableInsert {β : Type} (le : β → β → Bool) (x : β) : List β → List β
  | [] => [x]
  | y :: ys => if le y x then y :: stableInsert le x ys else x :: y :: ys

/-- Python's `sorted`: a stable sort with respect to the given `le`,
embedded as left-to-right stable insertion. -/
def pySorted {β : Type} (le : β → β → Bool) (l : List β) : List β :=
  l.foldl (fun acc x => stableInsert le x acc) []

/-- Lookup in an insertion-ordered association list (Python `d[k]` / `d.get(k)`). -/
def getAssoc {β : Type} (k : String) (l : List (String × β)) : Option β :=
  (l.find? (fun p => p.1 = k)).map Prod.snd

/-- Update in an insertion-ordered association list: Python `d[k] = v` keeps the
position of an existing key and appends a new key at the end. -/
def setAssoc {β : Type} (k : String) (v : β) (l : List (String × β)) : List (String × β) :=
  if (l.map Prod.fst).contains k then
    l.map (fun p => if p.1 = k then (k, v) else p)
  else l ++ [(k, v)]

namespace FrameCache

/-- Per-camera cache of `frame_cache.py`.  `__init__` assigns an `OrderedDict`
and then immediately rebinds `self.cache` to a plain `dict`, so entries live in
insertion order and `popitem()` removes the MOST recently inserted pair
(LIFO), for the plain dict just as for `OrderedDict()` with its default
`last=True`.  Keys are unique (dict semantics). -/
structure Cache (α : Type) where
  cache : List (ℚ × α)
  max_size : Nat
deriving DecidableEq

/-- Embeds `FrameCache.add_frame`: pop an existing key to refresh its position,
append the pair at the most-recent end, then on overflow `popitem()` — which
removes the LAST (most recently inserted) pair. -/
def add_frame {α : Type} (frame_timestamp : ℚ) (frame_data : α) (c : Cache α) : Cache α :=
  let popped :=
    if (c.cache.map Prod.fst).contains frame_timestamp then
      c.cache.filter (fun kv => kv.1 ≠ frame_timestamp)
    else c.cache
  let inserted := popped ++ [(frame_timestamp, frame_data)]
  if c.max_size ≠ 0 ∧ inserted.length > c.max_size then
    { c with cache := inserted.dropLast }
  else
    { c with cache := inserted }

/-- Embeds `FrameCache.get_and_remove_frames_before`: scan in insertion order
collecting entries while the key is `< frame_timestamp`, `break` at the first
key that is not, then remove the collected keys.  Returns the collected
payloads and the updated cache. -/
def get_and_remove_frames_before {α : Type} (frame_timestamp : ℚ) (c : Cache α) :
    List α × Cache α :=
  ((c.cache.takeWhile (fun kv => kv.1 < frame_timestamp)).map Prod.snd,
   { c with cache := c.cache.dropWhile (fun kv => kv.1 < frame_timestamp) })

end FrameCache

/-- Embeds `FrameSyncConfiguration` (the fields the synchronization core reads). -/
structure FrameSyncConfiguration where
  fps : Nat
  retention_time : ℚ
  latency_threshold : ℚ
  backlog_check_interval : ℚ
deriving DecidableEq

namespace FrameSequencingService

/-- Entry of `FrameSequencingService.frames_buffer`, as appended by `collect`.
The opaque `message` payload stored under `additional_info` is a type
parameter. -/
structure SeqRecord (μ : Type) where
  frame_timestamp : ℚ
  camera_id : String
  entry_time : ℚ
  message : μ
deriving DecidableEq

/-- State of `FrameSequencingService`.  `μ` is the message payload type of the
record-level buffers, `γ` the frame type inside collected groups. -/
structure State (μ γ : Type) where
  duration : ℚ
  temp_buffer : List (SeqRecord μ)
  frames_buffer : List (SeqRecord μ)
  grouped_frames_buffer : List (List γ)
  last_sequence_time : ℚ
deriving DecidableEq

/-- Embeds `FrameSequencingService.__init__`. -/
def init (μ γ : Type) (duration : ℚ) (now : ℚ) : State μ γ :=
  { duration := duration, temp_buffer := [], frames_buffer := [],
    grouped_frames_buffer := [], last_sequence_time := now }

/-- Embeds `FrameSequencingService.collect`. -/
def collect {μ γ : Type} (frame_timestamp : ℚ) (camera_id : String) (now : ℚ)
    (message : μ) (s : State μ γ) : State μ γ :=
  { s with frames_buffer :=
      s.frames_buffer ++ [⟨frame_timestamp, camera_id, now, message⟩] }

/-- Embeds `FrameSequencingService.collect_group`. -/
def collect_group {μ γ : Type} (group_frame : List γ) (s : State μ γ) : State μ γ :=
  { s with grouped_frames_buffer := s.grouped_frames_buffer ++ [group_frame] }

/-- Embeds `FrameSequencingService.sequence`: assign the sorted `frames_buffer`
to `temp_buffer` (replacing whatever `temp_buffer` held) and clear
`frames_buffer`.  Python `sorted` is stable, as is `pySorted`. -/
def sequence {μ γ : Type} (s : State μ γ) : State μ γ :=
  { s with
      temp_buffer := pySorted
        (fun a b => decide (a.frame_timestamp ≤ b.frame_timestamp)) s.frames_buffer
      frames_buffer := [] }

/-- Embeds `FrameSequencingService.next`: pop the head of `temp_buffer` and
return its message, or `none` when the buffer is empty. -/
def next {μ γ : Type} (s : State μ γ) : Option μ × State μ γ :=
  match s.temp_buffer with
  | [] => (none, s)
  | r :: rest => (some r.message, { s with temp_buffer := rest })

/-- Embeds `FrameSequencingService.next_group`: pop the head of
`grouped_frames_buffer`. -/
def next_group {μ γ : Type} (s : State μ γ) : Option (List γ) × State μ γ :=
  match s.grouped_frames_buffer with
  | [] => (none, s)
  | g :: rest => (some g, { s with grouped_frames_buffer := rest })

/-- Embeds the `msg = next_group(); while msg: callback(msg); msg = next_group()`
drain loop of both synchronizers, acting on the `grouped_frames_buffer` list:
it pops groups in FIFO order, delivering each to the callback; a popped EMPTY
group is falsy in Python, so it is consumed but not delivered and the loop
stops.  Returns the delivered groups in order and the remaining buffer. -/
def drainGroupsList {γ : Type} : List (List γ) → List (List γ) × List (List γ)
  | [] => ([], [])
  | g :: rest =>
    if g.isEmpty then ([], rest)
    else
      let (delivered, remaining) := drainGroupsList rest
      (g :: delivered, remaining)

end FrameSequencingService

namespace FrameSyncNumberService

/-- Buffer entry appended by `FrameSyncNumberService.collect`.  The dict
carries `frame_number`, `frame_timestamp`, `camera_id`, `camera_data` and
`grouped`; it has NO `entry_time` key, so `entry.get("entry_time")` yields
`None` — embedded as an `Option` that `collect` leaves at `none`. -/
structure NFrame where
  frame_number : Nat
  frame_timestamp : ℚ
  camera_id : String
  entry_time : Option ℚ
  grouped : Bool
deriving DecidableEq

/-- Value stored in `current_camera_data` by the number service. -/
structure NCameraData where
  frame_number : Nat
  frame_timestamp : ℚ
  elapsed_time : ℚ
deriving DecidableEq

/-- State of `FrameSyncNumberService`.  `initial_camera_data` maps a camera id
to its `start_time` (the first frame's timestamp); its `elapsed_time` slot is
written once to `0` and never read, so it is dropped here. -/
structure State where
  initial_camera_data : List (String × ℚ)
  frames_buffer : List NFrame
  fps : Nat
  current_camera_data : List (String × NCameraData)
  retention_time : ℚ
  frame_seq : FrameSequencingService.State Unit NFrame
deriving DecidableEq

/-- Embeds `FrameSyncNumberService.__init__`. -/
def init (config : FrameSyncConfiguration) (now : ℚ) : State :=
  { initial_camera_data := [], frames_buffer := [], fps := config.fps,
    current_camera_data := [], retention_time := config.retention_time,
    frame_seq := FrameSequencingService.init Unit NFrame config.backlog_check_interval now }

/-- Embeds `FrameSyncNumberService.collect`. -/
def collect (frame_number : Nat) (frame_timestamp : ℚ) (fps : Nat)
    (camera_id : String) (st : State) : State :=
  let fps' := if st.fps = 0 then fps else st.fps
  let initial' :=
    if (st.initial_camera_data.map Prod.fst).contains camera_id then
      st.initial_camera_data
    else st.initial_camera_data ++ [(camera_id, frame_timestamp)]
  let start_time := (getAssoc camera_id initial').getD 0
  let camera_data : NCameraData :=
    ⟨frame_number, frame_timestamp, frame_timestamp - start_time⟩
  { st with
      fps := fps'
      initial_camera_data := initial'
      current_camera_data := setAssoc camera_id camera_data st.current_camera_data
      frames_buffer := st.frames_buffer ++
        [⟨frame_number, frame_timestamp, camera_id, none, false⟩] }

/-- Embeds `FrameSyncNumberService.sampling`.  `int(elapsed * fps)` truncates
toward zero; `abs(skip_count / self.fps)` divides first (raising
`ZeroDivisionError` when `fps = 0`) and takes the absolute value of the float
quotient.  The second component is Python's boolean: `True` = skip,
`False` = wait. -/
def sampling (camera_id : String) (st : State) : Except PyError (ℚ × Bool) :=
  match getAssoc camera_id st.current_camera_data with
  | none => .error .keyError
  | some camera_data =>
    let expected_frame : ℤ := pyTrunc (camera_data.elapsed_time * (st.fps : ℚ))
    let skip_count : ℤ := expected_frame - (camera_data.frame_number : ℤ)
    if skip_count < 0 then
      if st.fps = 0 then .error .zeroDivisionError
      else .ok (pyAbs ((skip_count : ℚ) / (st.fps : ℚ)), false)
    else .ok ((max skip_count 0 : ℤ), true)

/-- Embeds one iteration of the grouping loop of
`FrameSyncNumberService.synchronize`: the candidate group is every buffered
frame bearing `frame_number` (regardless of camera or grouped mark); when its
size equals the number of cameras seen so far, all its members are marked
grouped. -/
def markGroup (numCameras : Nat) (buffer : List NFrame) (frame_number : Nat) : List NFrame :=
  let group := buffer.filter (fun f => f.frame_number = frame_number)
  if group.length = numCameras then
    buffer.map (fun f =>
      if f.frame_number = frame_number then { f with grouped := true } else f)
  else buffer

/-- Embeds the grouping loop of `FrameSyncNumberService.synchronize`: iterate
over the distinct buffered frame numbers in ascending order, marking complete
groups. -/
def groupPhase (buffer : List NFrame) (numCameras : Nat) : List NFrame :=
  (pySorted (fun a b => decide (a ≤ b)) ((buffer.map (fun f => f.frame_number)).dedup)).foldl
    (markGroup numCameras) buffer

/-- Embeds the cleanup comprehension of `FrameSyncNumberService.synchronize`:
keep entries that are not grouped AND within retention — but evaluating
`time.time() - entry.get("entry_time")` raises `TypeError` whenever the entry
has no `entry_time` (always the case for number-mode entries). -/
def cleanup (now retention : ℚ) : List NFrame → Except PyError (List NFrame)
  | [] => .ok []
  | f :: rest =>
    if f.grouped then cleanup now retention rest
    else
      match f.entry_time with
      | none => .error .typeError
      | some et =>
        if now - et ≤ retention then (cleanup now retention rest).map (f :: ·)
        else cleanup now retention rest

/-- Embeds `FrameSyncNumberService.synchronize`.  The local `grouped_frames`
list of the source is write-only, and nothing in number mode ever calls
`frame_seq.collect_group`, so the drain of `next_group` acts on whatever
`grouped_frames_buffer` already holds.  Returns the groups handed to the
callback together with the resulting state (or the `TypeError` escaping from
cleanup, which in the source fires after the callbacks have run). -/
def synchronize (now : ℚ) (st : State) :
    List (List NFrame) × Except PyError State :=
  let buffer' := groupPhase st.frames_buffer st.initial_camera_data.length
  let seq1 := FrameSequencingService.sequence st.frame_seq
  let drained := FrameSequencingService.drainGroupsList seq1.grouped_frames_buffer
  let seq2 := { seq1 with grouped_frames_buffer := drained.2 }
  match cleanup now st.retention_time buffer' with
  | .error e => (drained.1, .error e)
  | .ok kept =>
      (drained.1, .ok { st with frames_buffer := kept, frame_seq := seq2 })

end FrameSyncNumberService

namespace FrameSyncTimestampService

/-- Buffer entry appended by `FrameSyncTimestampService.collect`.  The dict is
created without a `grouped` key; the grouping pass later assigns the anchor's
`frame_timestamp` to it, so the embedded field is `Option ℚ` starting at
`none`. -/
structure TFrame where
  frame_timestamp : ℚ
  frame_number : Nat
  camera_id : String
  entry_time : ℚ
  grouped : Option ℚ
deriving DecidableEq

/-- Python truthiness of `frame.get("grouped")`: an absent key gives `None`
(falsy); a stored timestamp is falsy exactly when it equals `0.0`. -/
def truthyGrouped (f : TFrame) : Bool :=
  match f.grouped with
  | none => false
  | some q => decide (q ≠ 0)

/-- Value stored per camera in `initial_camera_data`. -/
structure TCameraInit where
  initial_delay : ℚ
  start_time : ℚ
deriving DecidableEq

/-- Value stored per camera in `current_camera_data`. -/
structure TCameraData where
  frame_number : Nat
  frame_timestamp : ℚ
  elapsed_time : ℚ
  delay : ℚ
deriving DecidableEq

/-- State of `FrameSyncTimestampService`. -/
structure State where
  initial_camera_data : List (String × TCameraInit)
  current_camera_data : List (String × TCameraData)
  frames_buffer : List TFrame
  fps : Nat
  retention_time : ℚ
  latency_threshold : ℚ
  tolerance : ℚ
  frame_seq : FrameSequencingService.State Unit TFrame
deriving DecidableEq

/-- Embeds `FrameSyncTimestampService.__init__`. -/
def init (config : FrameSyncConfiguration) (now : ℚ) : State :=
  { initial_camera_data := [], current_camera_data := [], frames_buffer := [],
    fps := config.fps, retention_time := config.retention_time,
    latency_threshold := config.latency_threshold, tolerance := 0,
    frame_seq := FrameSequencingService.init Unit TFrame config.backlog_check_interval now }

/-- Embeds `FrameSyncTimestampService.collect`; `now` is `time.time()`.
Computing `1 / self.fps` raises `ZeroDivisionError` when the fps is still 0.
`if self.latency_threshold` tests float truthiness (`0.0` is falsy). -/
def collect (frame_number : Nat) (frame_timestamp : ℚ) (fps : Nat)
    (camera_id : String) (now : ℚ) (st : State) : Except PyError State :=
  let fps' := if st.fps = 0 then fps else st.fps
  if st.tolerance = 0 ∧ fps' = 0 then .error .zeroDivisionError
  else
    let tolerance' := if st.tolerance = 0 then 1 / (fps' : ℚ) else st.tolerance
    let initial' :=
      if (st.initial_camera_data.map Prod.fst).contains camera_id then
        st.initial_camera_data
      else
        let initial_delay :=
          if st.latency_threshold ≠ 0 then
            min st.latency_threshold (now - frame_timestamp)
          else now - frame_timestamp
        st.initial_camera_data ++ [(camera_id, ⟨initial_delay, now⟩)]
    let ci := (getAssoc camera_id initial').getD ⟨0, 0⟩
    let camera_data : TCameraData :=
      ⟨frame_number, frame_timestamp, now - ci.start_time,
       now - frame_timestamp - ci.initial_delay⟩
    .ok { st with
            fps := fps'
            tolerance := tolerance'
            initial_camera_data := initial'
            current_camera_data := setAssoc camera_id camera_data st.current_camera_data
            frames_buffer := st.frames_buffer ++
              [⟨frame_timestamp, frame_number, camera_id, now, none⟩] }

/-- Embeds `FrameSyncTimestampService.sampling`. -/
def sampling (camera_id : String) (st : State) : Except PyError (ℚ × Bool) :=
  if ¬ (st.initial_camera_data.map Prod.fst).contains camera_id then .error .keyError
  else
    match getAssoc camera_id st.current_camera_data with
    | none => .error .keyError
    | some camera_data =>
      let delay := camera_data.delay
      if delay < 0 then .ok (pyAbs delay, false)
      else .ok ((max (pyTrunc (delay * (st.fps : ℚ))) 0 : ℤ), true)

/-- Marks the frames at the given buffer positions as grouped with the
anchor's timestamp (`g_frame["grouped"] = item["frame_timestamp"]`). -/
def markIndices (anchor_ts : ℚ) (idxs : List Nat) (buf : List TFrame) : List TFrame :=
  idxs.foldl (fun b k =>
    match b.get? k with
    | none => b
    | some f => b.set k { f with grouped := some anchor_ts }) buf

/-- Embeds the inner scan of `FrameSyncTimestampService.synchronize`: extend
the candidate group seeded by the anchor, walking the buffer from position
`j`; a frame is added when it is not yet grouped, lies within tolerance of
the ANCHOR's timestamp, and its camera is not yet represented.  When the
candidate reaches one frame per camera seen so far, its members are marked
and the loop breaks, returning the collected member positions.  `fuel` is the
number of positions still to visit. -/
def scanInner (tolerance : ℚ) (numCameras : Nat) (anchor_ts : ℚ) :
    Nat → Nat → List TFrame → List (Nat × TFrame) →
    List TFrame × Option (List (Nat × TFrame))
  | 0, _, buf, _ => (buf, none)
  | fuel + 1, j, buf, group =>
    match buf.get? j with
    | none => (buf, none)
    | some frame =>
      if truthyGrouped frame then
        scanInner tolerance numCameras anchor_ts fuel (j + 1) buf group
      else if decide (pyAbs (frame.frame_timestamp - anchor_ts) ≤ tolerance) &&
              ! group.any (fun p => p.2.camera_id = frame.camera_id) then
        let group' := group ++ [(j, frame)]
        if group'.length = numCameras then
          (markIndices anchor_ts (group'.map Prod.fst) buf, some group')
        else scanInner tolerance numCameras anchor_ts fuel (j + 1) buf group'
      else scanInner tolerance numCameras anchor_ts fuel (j + 1) buf group

/-- Embeds the outer loop of `FrameSyncTimestampService.synchronize`: each
not-yet-grouped buffer entry in turn seeds a candidate group scanned by
`scanInner`.  Collected groups are accumulated in completion order; their
members carry the anchor timestamp in `grouped`, as the mutated dicts do once
the pass has marked them. -/
def scanOuter (tolerance : ℚ) (numCameras : Nat) :
    Nat → Nat → List TFrame → List (List TFrame) →
    List TFrame × List (List TFrame)
  | 0, _, buf, groups => (buf, groups)
  | fuel + 1, i, buf, groups =>
    match buf.get? i with
    | none => (buf, groups)
    | some item =>
      if truthyGrouped item then
        scanOuter tolerance numCameras fuel (i + 1) buf groups
      else
        match scanInner tolerance numCameras item.frame_timestamp buf.length 0 buf
            [(i, item)] with
        | (buf', none) => scanOuter tolerance numCameras fuel (i + 1) buf' groups
        | (buf', some g) =>
          scanOuter tolerance numCameras fuel (i + 1) buf'
            (groups ++ [(g.map Prod.snd).map
              (fun f => { f with grouped := some item.frame_timestamp })])

/-- Embeds `FrameSyncTimestampService.synchronize`.  The grouping scan submits
each completed group through `frame_seq.collect_group`; the service then calls
`frame_seq.sequence()` (which sorts the record-level `frames_buffer`, NOT the
group buffer — `sequence_groups`, the only routine sorting the group buffer,
is never invoked anywhere in the repository) and drains `next_group` to the
callback, so groups are delivered in completion order.  Cleanup keeps the
un-grouped entries still inside the retention window; timestamp-mode entries
always carry `entry_time`, so no `TypeError` can arise here. -/
def synchronize (now : ℚ) (st : State) : List (List TFrame) × State :=
  let (buf', groups) :=
    scanOuter st.tolerance st.initial_camera_data.length st.frames_buffer.length 0
      st.frames_buffer []
  let seq0 := groups.foldl (fun s g => FrameSequencingService.collect_group g s) st.frame_seq
  let seq1 := FrameSequencingService.sequence seq0
  let drained := FrameSequencingService.drainGroupsList seq1.grouped_frames_buffer
  let seq2 := { seq1 with grouped_frames_buffer := drained.2 }
  let kept := buf'.filter (fun f =>
    ! truthyGrouped f && decide (now - f.entry_time ≤ st.retention_time))
  (drained.1, { st with frames_buffer := kept, frame_seq := seq2 })

end FrameSyncTimestampService

namespace MessageConsumer

/-- Decoded message envelope — the fields `MessageConsumer.start` reads. -/
structure KMessage where
  frame_number : Nat
  frame_timestamp : ℚ
  fps : Nat
  camera_id : String
deriving DecidableEq

/-- An inbound bus record: its partition key and the result of the
`value_deserializer`, which runs inside the consumer iterator (a decode
failure therefore surfaces as an exception of the `for` loop itself). -/
structure KRecord where
  key : String
  value : Except PyError KMessage

/-- Loop configuration for the embedded portion of `MessageConsumer.start`:
the optional expected key and, when frame synchronization is on
(`frame_sync_type = "number"`), its configuration.  The embedding covers the
configurations with `enable_sequencing = false`, `unify = false`,
`seek_to_end = false` and `ignore_initial_delay = false` — the branch
containing the skip/commit/callback logic; the remaining branches drive the
bus cursor and background threads.  With `unify = false`,
`process_frame_synchronization` only samples the backlog for logging, so it
is not modelled. -/
structure LoopConfig where
  key : Option String
  sync_config : Option FrameSyncConfiguration
deriving DecidableEq

/-- Mutable loop state across iterations of `MessageConsumer.start`. -/
structure LoopState where
  skip_count : Nat
  frame_synchronization : Option FrameSyncNumberService.State
deriving DecidableEq

/-- What one iteration did with its record: `filtered` = key mismatch
(`continue` before any handling), `skip_consumed` = dropped by the skip
decision (`continue` before the commit), `delivered` = handed to the
synchronous callback, `committed` = the `self.consumer.commit()` at the end
of the iteration was reached. -/
structure StepEvent where
  filtered : Bool
  skip_consumed : Bool
  delivered : Bool
  committed : Bool
deriving DecidableEq

/-- The non-negative integer skip count carried by the rational that
`sampling` returns in its SKIP branch. -/
def ratSkipCount (q : ℚ) : Nat := q.num.toNat

/-- Embeds one iteration of the message loop in `MessageConsumer.start` for
the configurations described at `LoopConfig`.  Any exception — decode failure
in the deserializer, an exception from the synchronous callback, or a
`KeyError` from `sampling` — propagates: the loop body has no per-message
handler. -/
def consumeStep (cfg : LoopConfig) (cb : KMessage → Except PyError Unit)
    (st : LoopState) (record : KRecord) :
    Except PyError (LoopState × StepEvent) :=
  match record.value with
  | .error e => .error e
  | .ok message =>
    if (match cfg.key with
        | some k => decide (k ≠ record.key)
        | none => false) then
      .ok (st, ⟨true, false, false, false⟩)
    else
      let st :=
        match st.frame_synchronization, cfg.sync_config with
        | none, some sc =>
          { st with frame_synchronization := some (FrameSyncNumberService.init sc 0) }
        | _, _ => st
      let st :=
        match st.frame_synchronization with
        | some sync =>
          if st.skip_count = 0 then
            { st with frame_synchronization := some (FrameSyncNumberService.collect
                message.frame_number message.frame_timestamp message.fps
                message.camera_id sync) }
          else st
        | none => st
      if st.skip_count > 0 then
        .ok ({ st with skip_count := st.skip_count - 1 }, ⟨false, true, false, false⟩)
      else
        match cb message with
        | .error e => .error e
        | .ok _ =>
          match st.frame_synchronization with
          | none => .ok (st, ⟨false, false, true, true⟩)
          | some sync =>
            match FrameSyncNumberService.sampling message.camera_id sync with
            | .error e => .error e
            | .ok (skip_or_wait, logic) =>
              let skip' := if logic then ratSkipCount skip_or_wait else 0
              .ok ({ st with skip_count := skip' }, ⟨false, false, true, true⟩)

/-- Embeds the `for` loop of `MessageConsumer.start` over a finite inbound
stream: iterations run in order; the single `try`/`except` wrapping the whole
loop means the first exception ends the run (it is logged, re-raised, and the
`finally` path closes the consumer).  Returns the per-iteration events of the
completed iterations and the final state or the escaping error. -/
def consumerRun (cfg : LoopConfig) (cb : KMessage → Except PyError Unit) :
    LoopState → List KRecord → List StepEvent × Except PyError LoopState
  | st, [] => ([], .ok st)
  | st, r :: rest =>
    match consumeStep cfg cb st r with
    | .error e => ([], .error e)
    | .ok (st', ev) =>
      let (evs, res) := consumerRun cfg cb st' rest
      (ev :: evs, res)

end MessageConsumer

section CacheClaims

/-- C3: the code contradicts its own comment "evict the oldest frame".  On a
cache at capacity (`max_size = 1`, holding timestamp 1), adding a new
timestamp 2 triggers `popitem()`, which on the plain dict pops the MOST
recently inserted pair — the one just added — so the cache still holds the
old entry and the new record is gone. -/
theorem C3_overflow_evicts_newest :
    (FrameCache.add_frame 2 "r2" ⟨[((1 : ℚ), "r1")], 1⟩).cache = [((1 : ℚ), "r1")] := by
  decide

/-- Cache state whose insertion order disagrees with timestamp order: add
timestamps 1, 2, then re-insert 1 (which moves it behind 2). -/
def c5cache : FrameCache.Cache String :=
  FrameCache.add_frame 1 "r1b"
    (FrameCache.add_frame 2 "r2" (FrameCache.add_frame 1 "r1" ⟨[], 1000⟩))

/-- C5 counterexample: on the re-inserted state (insertion order ≠ timestamp
order) `get_and_remove_frames_before 2` stops at the first key `≥ 2` and
returns NO records, even though the record with timestamp `1 < 2` is in the
cache — and that record stays behind, so the result is not `{r : r.timestamp
< t}` and the remainder is not `{r : r.timestamp ≥ t}`. -/
theorem C5_counterexample_reinsertion :
    (FrameCache.get_and_remove_frames_before 2 c5cache).1 = [] ∧
    ((1 : ℚ), "r1b") ∈ (FrameCache.get_and_remove_frames_before 2 c5cache).2.cache := by
  decide

theorem cache_scan_eq_filter {α : Type} (t : ℚ) :
    ∀ l : List (ℚ × α), l.Pairwise (fun a b => a.1 < b.1) →
      l.takeWhile (fun kv => decide (kv.1 < t)) =
        l.filter (fun kv => decide (kv.1 < t)) ∧
      l.dropWhile (fun kv => decide (kv.1 < t)) =
        l.filter (fun kv => ! decide (kv.1 < t))
  | [], _ => ⟨rfl, rfl⟩
  | kv :: rest, h => by
    rcases List.pairwise_cons.mp h with ⟨hhead, htail⟩
    rcases cache_scan_eq_filter t rest htail with ⟨ih1, ih2⟩
    by_cases hlt : kv.1 < t
    · simp [List.takeWhile_cons, List.dropWhile_cons, List.filter_cons, hlt, ih1, ih2]
    · have hrest : ∀ x ∈ rest, ¬ x.1 < t := fun x hx hxt =>
        hlt (lt_trans (hhead x hx) hxt)
      have h1 : rest.filter (fun kv => decide (kv.1 < t)) = [] := by
        rw [List.filter_eq_nil_iff]
        intro x hx
        simpa using hrest x hx
      have h2 : rest.filter (fun kv => ! decide (kv.1 < t)) = rest := by
        rw [List.filter_eq_self]
        intro x hx
        simpa using hrest x hx
      simp [List.takeWhile_cons, List.dropWhile_cons, List.filter_cons, hlt, h1, h2]

/-- C5 (amended): `get_and_remove_frames_before t` returns the maximal
insertion-order PREFIX of records with timestamp `< t` and removes exactly
those; when the cache's keys are strictly increasing in insertion order (the
steady state, which re-insertion can break), this prefix is exactly
`{r : r.timestamp < t}` in ascending order, and exactly
`{r : r.timestamp ≥ t}` remains. -/
theorem C5_take_before_exact_on_sorted {α : Type} (c : FrameCache.Cache α) (t : ℚ)
    (hs : c.cache.Pairwise (fun a b => a.1 < b.1)) :
    (FrameCache.get_and_remove_frames_before t c).1 =
      (c.cache.filter (fun kv => decide (kv.1 < t))).map Prod.snd ∧
    (FrameCache.get_and_remove_frames_before t c).2.cache =
      c.cache.filter (fun kv => ! decide (kv.1 < t)) := by
  rcases cache_scan_eq_filter t c.cache hs with ⟨h1, h2⟩
  unfold FrameCache.get_and_remove_frames_before
  exact ⟨by rw [h1], h2⟩

/-- Witness for C5 (amended) at the cache 1 ↦ "a", 2 ↦ "b", 3 ↦ "c" with
threshold 3. -/
theorem C5_take_before_exact_on_sorted_witness :
    ([((1 : ℚ), "a"), (2, "b"), (3, "c")].Pairwise
       (fun a b : ℚ × String => a.1 < b.1)) ∧
    ((FrameCache.get_and_remove_frames_before 3
        (⟨[((1 : ℚ), "a"), (2, "b"), (3, "c")], 1000⟩ : FrameCache.Cache String)).1 =
      (([((1 : ℚ), "a"), (2, "b"), (3, "c")] : List (ℚ × String)).filter
        (fun kv => decide (kv.1 < 3))).map Prod.snd ∧
     (FrameCache.get_and_remove_frames_before 3
        (⟨[((1 : ℚ), "a"), (2, "b"), (3, "c")], 1000⟩ : FrameCache.Cache String)).2.cache =
      ([((1 : ℚ), "a"), (2, "b"), (3, "c")] : List (ℚ × String)).filter
        (fun kv => ! decide (kv.1 < 3))) :=
  ⟨by decide,
   C5_take_before_exact_on_sorted
     (⟨[((1 : ℚ), "a"), (2, "b"), (3, "c")], 1000⟩ : FrameCache.Cache String) 3
     (by decide)⟩

end CacheClaims

section SequencerClaims

/-- Sequencer state holding one collected, not yet sequenced record. -/
def c6state : FrameSequencingService.State Nat Unit :=
  { duration := 1, temp_buffer := [], frames_buffer := [⟨5, "A", 0, 42⟩],
    grouped_frames_buffer := [], last_sequence_time := 0 }

/-- C6 counterexample: with one collected record, `sequence()` twice with no
intervening collect does NOT leave the service in the same state as once —
the second call replaces the pending sorted output with the empty sort, so
pending output is discarded: `next()` yields nothing after two calls but
yields the record's message after one. -/
theorem C6_counterexample_second_sequence_discards :
    FrameSequencingService.sequence (FrameSequencingService.sequence c6state) ≠
      FrameSequencingService.sequence c6state ∧
    (FrameSequencingService.next
        (FrameSequencingService.sequence (FrameSequencingService.sequence c6state))).1 = none ∧
    (FrameSequencingService.next (FrameSequencingService.sequence c6state)).1 = some 42 := by
  decide

/-- C6 (amended): a second `sequence()` with no intervening `collect` produces
no additional output — indeed it produces NO output: it replaces `temp_buffer`
with the sort of the already-cleared `frames_buffer`, so the resulting state
is the once-sequenced state with the pending output queue emptied, and
`next()` returns nothing; output pending (sorted but undrained) after the
first call is discarded, not preserved. -/
theorem C6_sequence_twice {μ γ : Type} (s : FrameSequencingService.State μ γ) :
    FrameSequencingService.sequence (FrameSequencingService.sequence s) =
      { FrameSequencingService.sequence s with temp_buffer := [] } ∧
    (FrameSequencingService.next
        (FrameSequencingService.sequence (FrameSequencingService.sequence s))).1 =
      (none : Option μ) := by
  refine ⟨?_, ?_⟩ <;>
    simp [FrameSequencingService.sequence, FrameSequencingService.next, pySorted]

end SequencerClaims

deriving instance DecidableEq for Except

section TimestampSyncClaims

/-- Timestamp-mode configuration: fps 1 (so τ = 1 s), retention 1000 s, no
latency threshold, backlog interval 5 s. -/
def tCfg : FrameSyncConfiguration := ⟨1, 1000, 0, 5⟩

/-- The grouping key of a completed group: the minimum `frame_timestamp` of
its members (`min(frame["frame_timestamp"] for frame in group)`). -/
def groupMinTimestamp (g : List FrameSyncTimestampService.TFrame) : ℚ :=
  match g with
  | [] => 0
  | f :: rest => rest.foldl (fun m x => min m x.frame_timestamp) f.frame_timestamp

/-- Timestamp-mode run in which the later-arriving pair carries the EARLIER
timestamps: collect (A, 1, t=10), (B, 1, t=10), (A, 2, t=2), (B, 3, t=3)
at fps 1 (τ = 1), then one synchronize pass. -/
def c2run : Except PyError
    (List (List FrameSyncTimestampService.TFrame) × FrameSyncTimestampService.State) := do
  let s1 ← FrameSyncTimestampService.collect 1 10 1 "A" 10
    (FrameSyncTimestampService.init tCfg 0)
  let s2 ← FrameSyncTimestampService.collect 1 10 1 "B" 11 s1
  let s3 ← FrameSyncTimestampService.collect 2 2 1 "A" 12 s2
  let s4 ← FrameSyncTimestampService.collect 3 3 1 "B" 13 s3
  pure (FrameSyncTimestampService.synchronize 14 s4)

/-- C2: the synchronize pass completes the group keyed 10 first and the group
keyed 2 second, and delivers them in exactly that (completion) order — the
grouping-key sequence handed to `deliver` is [10, 2], which is NOT
non-decreasing.  The delivery path drains `next_group` without any sort of
the group buffer: `sequence()` sorts only the record-level `frames_buffer`,
and `sequence_groups` — the sole routine that orders groups by minimum
timestamp — is never called anywhere in the repository (and would deadlock on
its recursively acquired non-reentrant lock if it were). -/
theorem C2_delivery_not_monotone :
    (c2run.map (fun r => r.1.map (fun g =>
        g.map (fun f => (f.camera_id, f.frame_timestamp))))) =
      .ok [[("A", 10), ("B", 10)], [("A", 2), ("B", 3)]] ∧
    (c2run.map (fun r => r.1.map groupMinTimestamp)) = .ok [10, 2] ∧
    ¬ ((10 : ℚ) ≤ 2) := by
  refine ⟨?_, ?_, by norm_num⟩ <;>
    norm_num [c2run, FrameSyncTimestampService.collect, FrameSyncTimestampService.init,
      tCfg, FrameSyncTimestampService.synchronize, FrameSyncTimestampService.scanOuter,
      FrameSyncTimestampService.scanInner, FrameSyncTimestampService.markIndices,
      FrameSyncTimestampService.truthyGrouped, FrameSequencingService.sequence,
      FrameSequencingService.collect_group, FrameSequencingService.drainGroupsList,
      FrameSequencingService.init, getAssoc, setAssoc, pyAbs, pySorted, stableInsert,
      Except.bind, Bind.bind, Except.map, Except.pure, Pure.pure, groupMinTimestamp,
      (by decide : ("A" : String) ≠ "B"), (by decide : ("B" : String) ≠ "A")]

/-- Timestamp-mode run with three cameras at fps 1 (τ = 1): collect
(A, 1, t=100), (B, 1, t=99), (C, 1, t=101), then one synchronize pass.  B and
C both lie within τ of the anchor A but 2τ apart from each other. -/
def c4run : Except PyError
    (List (List FrameSyncTimestampService.TFrame) × FrameSyncTimestampService.State) := do
  let s1 ← FrameSyncTimestampService.collect 1 100 1 "A" 100
    (FrameSyncTimestampService.init tCfg 0)
  let s2 ← FrameSyncTimestampService.collect 1 99 1 "B" 101 s1
  let s3 ← FrameSyncTimestampService.collect 1 101 1 "C" 102 s2
  pure (FrameSyncTimestampService.synchronize 103 s3)

/-- C4 counterexample: the pass emits the single group
{A@100, B@99, C@101} although |99 − 101| = 2 > τ = 1 — the synchronizer
checks each candidate only against the ANCHOR's timestamp, so two non-anchor
members of one emitted group can differ by up to 2τ. -/
theorem C4_counterexample_pairwise :
    (c4run.map (fun r => r.1.map (fun g =>
        g.map (fun f => (f.camera_id, f.frame_timestamp))))) =
      .ok [[("A", 100), ("B", 99), ("C", 101)]] ∧
    (c4run.map (fun r => r.2.tolerance)) = .ok 1 ∧
    ¬ (|(99 : ℚ) - 101| ≤ 1) := by
  refine ⟨?_, ?_, ?_⟩
  · norm_num [c4run, FrameSyncTimestampService.collect, FrameSyncTimestampService.init,
      tCfg, FrameSyncTimestampService.synchronize, FrameSyncTimestampService.scanOuter,
      FrameSyncTimestampService.scanInner, FrameSyncTimestampService.markIndices,
      FrameSyncTimestampService.truthyGrouped, FrameSequencingService.sequence,
      FrameSequencingService.collect_group, FrameSequencingService.drainGroupsList,
      FrameSequencingService.init, getAssoc, setAssoc, pyAbs, pySorted, stableInsert,
      Except.bind, Bind.bind, Except.map, Except.pure, Pure.pure,
      (by decide : ("A" : String) ≠ "B"), (by decide : ("B" : String) ≠ "A"),
      (by decide : ("A" : String) ≠ "C"), (by decide : ("C" : String) ≠ "A"),
      (by decide : ("B" : String) ≠ "C"), (by decide : ("C" : String) ≠ "B")]
  · norm_num [c4run, FrameSyncTimestampService.collect, FrameSyncTimestampService.init,
      tCfg, FrameSyncTimestampService.synchronize, FrameSyncTimestampService.scanOuter,
      FrameSyncTimestampService.scanInner, FrameSyncTimestampService.markIndices,
      FrameSyncTimestampService.truthyGrouped, FrameSequencingService.sequence,
      FrameSequencingService.collect_group, FrameSequencingService.drainGroupsList,
      FrameSequencingService.init, getAssoc, setAssoc, pyAbs, pySorted, stableInsert,
      Except.bind, Bind.bind, Except.map, Except.pure, Pure.pure,
      (by decide : ("A" : String) ≠ "B"), (by decide : ("B" : String) ≠ "A"),
      (by decide : ("A" : String) ≠ "C"), (by decide : ("C" : String) ≠ "A"),
      (by decide : ("B" : String) ≠ "C"), (by decide : ("C" : String) ≠ "B")]
  · rw [show |(99 : ℚ) - 101| = 2 by rw [abs_of_nonpos (by norm_num)]; norm_num]
    norm_num

theorem scanInner_group_bound (tolerance : ℚ) (numCameras : Nat) (anchor_ts : ℚ) :
    ∀ (fuel j : Nat) (buf : List FrameSyncTimestampService.TFrame)
      (group : List (Nat × FrameSyncTimestampService.TFrame)),
      (∀ p ∈ group, |p.2.frame_timestamp - anchor_ts| ≤ tolerance) →
      ∀ buf' g,
        FrameSyncTimestampService.scanInner tolerance numCameras anchor_ts
          fuel j buf group = (buf', some g) →
        ∀ p ∈ g, |p.2.frame_timestamp - anchor_ts| ≤ tolerance := by
  intro fuel
  induction fuel with
  | zero =>
    intro j buf group _ buf' g heq
    simp [FrameSyncTimestampService.scanInner] at heq
  | succ fuel ih =>
    intro j buf group hg buf' g heq
    unfold FrameSyncTimestampService.scanInner at heq
    cases hj : buf.get? j with
    | none => rw [hj] at heq; simp at heq
    | some frame =>
      rw [hj] at heq
      simp only [] at heq
      by_cases hgrp : FrameSyncTimestampService.truthyGrouped frame
      · rw [if_pos hgrp] at heq
        exact ih (j + 1) buf group hg buf' g heq
      · rw [if_neg hgrp] at heq
        by_cases hcond : (decide (pyAbs (frame.frame_timestamp - anchor_ts) ≤ tolerance) &&
            ! group.any (fun p => p.2.camera_id = frame.camera_id)) = true
        · rw [if_pos hcond] at heq
          have habs : |frame.frame_timestamp - anchor_ts| ≤ tolerance := by
            have := (Bool.and_eq_true _ _).mp hcond
            rw [← pyAbs_eq_abs]
            exact of_decide_eq_true this.1
          have hg' : ∀ p ∈ group ++ [(j, frame)],
              |p.2.frame_timestamp - anchor_ts| ≤ tolerance := by
            intro p hp
            rcases List.mem_append.mp hp with hp | hp
            · exact hg p hp
            · rw [List.mem_singleton.mp hp]
              exact habs
          by_cases hlen : (group ++ [(j, frame)]).length = numCameras
          · rw [if_pos hlen] at heq
            have hgeq : some (group ++ [(j, frame)]) = some g :=
              congrArg Prod.snd heq
            rw [← Option.some.injEq _ _ |>.mp hgeq]
            exact hg'
          · rw [if_neg hlen] at heq
            exact ih (j + 1) buf (group ++ [(j, frame)]) hg' buf' g heq
        · rw [if_neg hcond] at heq
          exact ih (j + 1) buf group hg buf' g heq

theorem scanOuter_group_bound (tolerance : ℚ) (numCameras : Nat)
    (htol : 0 ≤ tolerance) :
    ∀ (fuel i : Nat) (buf : List FrameSyncTimestampService.TFrame)
      (acc : List (List FrameSyncTimestampService.TFrame)),
      (∀ g ∈ acc, ∃ a : ℚ, ∀ x ∈ g, |x.frame_timestamp - a| ≤ tolerance) →
      ∀ g ∈ (FrameSyncTimestampService.scanOuter tolerance numCameras fuel i buf acc).2,
        ∃ a : ℚ, ∀ x ∈ g, |x.frame_timestamp - a| ≤ tolerance := by
  intro fuel
  induction fuel with
  | zero =>
    intro i buf acc hacc g hgmem
    simpa [FrameSyncTimestampService.scanOuter] using hacc g hgmem
  | succ fuel ih =>
    intro i buf acc hacc g hgmem
    unfold FrameSyncTimestampService.scanOuter at hgmem
    cases hi : buf.get? i with
    | none =>
      rw [hi] at hgmem
      exact hacc g hgmem
    | some item =>
      rw [hi] at hgmem
      simp only [] at hgmem
      by_cases hgrp : FrameSyncTimestampService.truthyGrouped item
      · rw [if_pos hgrp] at hgmem
        exact ih (i + 1) buf acc hacc g hgmem
      · rw [if_neg hgrp] at hgmem
        cases hscan : FrameSyncTimestampService.scanInner tolerance numCameras
            item.frame_timestamp buf.length 0 buf [(i, item)] with
        | mk buf' og =>
          cases og with
          | none =>
            rw [hscan] at hgmem
            exact ih (i + 1) buf' acc hacc g hgmem
          | some gp =>
            rw [hscan] at hgmem
            refine ih (i + 1) buf' _ ?_ g hgmem
            intro g' hg'
            rcases List.mem_append.mp hg' with hg' | hg'
            · exact hacc g' hg'
            · rw [List.mem_singleton.mp hg']
              refine ⟨item.frame_timestamp, ?_⟩
              intro x hx
              rcases List.mem_map.mp hx with ⟨y, hy, hxy⟩
              rcases List.mem_map.mp hy with ⟨p, hp, hyp⟩
              have hseed : ∀ q ∈ [(i, item)],
                  |q.2.frame_timestamp - item.frame_timestamp| ≤ tolerance := by
                intro q hq
                rw [List.mem_singleton.mp hq]
                simpa using htol
              have := scanInner_group_bound tolerance numCameras item.frame_timestamp
                buf.length 0 buf [(i, item)] hseed buf' gp hscan p hp
              rw [← hxy]
              simpa [← hyp] using this

theorem drainGroupsList_sub {γ : Type} :
    ∀ l : List (List γ), ∀ g ∈ (FrameSequencingService.drainGroupsList l).1, g ∈ l
  | [], g, hg => by simp [FrameSequencingService.drainGroupsList] at hg
  | x :: rest, g, hg => by
    unfold FrameSequencingService.drainGroupsList at hg
    by_cases hx : x.isEmpty
    · rw [if_pos hx] at hg
      simp at hg
    · rw [if_neg hx] at hg
      simp only [List.mem_cons] at hg ⊢
      rcases hg with hg | hg
      · exact Or.inl hg
      · exact Or.inr (drainGroupsList_sub rest g hg)

theorem foldl_collect_group_buffer {μ γ : Type} :
    ∀ (gs : List (List γ)) (s : FrameSequencingService.State μ γ),
      (gs.foldl (fun s g => FrameSequencingService.collect_group g s) s).grouped_frames_buffer =
        s.grouped_frames_buffer ++ gs
  | [], s => by simp
  | g :: gs, s => by
    simp only [List.foldl_cons]
    rw [foldl_collect_group_buffer gs]
    simp [FrameSequencingService.collect_group]

/-- C4 (amended): every group that a `synchronize` pass of the timestamp
synchronizer emits (with no stale groups pending in the sequencer) is built
around its anchor record: some timestamp `a` (the anchor's) is within
τ = tolerance of EVERY member, and consequently any two members differ by at
most 2τ — not τ: the membership check compares candidates only against the
anchor, never pairwise. -/
theorem C4_group_tolerance_anchor (st : FrameSyncTimestampService.State) (now : ℚ)
    (htol : 0 ≤ st.tolerance)
    (hseq : st.frame_seq.grouped_frames_buffer = []) :
    ∀ g ∈ (FrameSyncTimestampService.synchronize now st).1,
      ∃ a : ℚ, (∀ x ∈ g, |x.frame_timestamp - a| ≤ st.tolerance) ∧
        ∀ x ∈ g, ∀ y ∈ g,
          |x.frame_timestamp - y.frame_timestamp| ≤ 2 * st.tolerance := by
  intro g hg
  unfold FrameSyncTimestampService.synchronize at hg
  simp only [] at hg
  rw [FrameSequencingService.sequence] at hg
  have hbuf : (FrameSequencingService.sequence
      ((FrameSyncTimestampService.scanOuter st.tolerance st.initial_camera_data.length
        st.frames_buffer.length 0 st.frames_buffer []).2.foldl
        (fun s g => FrameSequencingService.collect_group g s) st.frame_seq)).grouped_frames_buffer =
      (FrameSyncTimestampService.scanOuter st.tolerance st.initial_camera_data.length
        st.frames_buffer.length 0 st.frames_buffer []).2 := by
    rw [FrameSequencingService.sequence]
    rw [foldl_collect_group_buffer, hseq]
    simp
  have hmem : g ∈ (FrameSyncTimestampService.scanOuter st.tolerance
      st.initial_camera_data.length st.frames_buffer.length 0 st.frames_buffer []).2 := by
    have := drainGroupsList_sub _ g hg
    rw [foldl_collect_group_buffer, hseq] at this
    simpa using this
  rcases scanOuter_group_bound st.tolerance st.initial_camera_data.length htol
      st.frames_buffer.length 0 st.frames_buffer [] (by simp) g hmem with ⟨a, ha⟩
  refine ⟨a, ha, ?_⟩
  intro x hx y hy
  calc |x.frame_timestamp - y.frame_timestamp| ≤
      |x.frame_timestamp - a| + |a - y.frame_timestamp| := abs_sub_le _ _ _
    _ ≤ st.tolerance + st.tolerance := by
        gcongr
        · exact ha x hx
        · rw [abs_sub_comm]
          exact ha y hy
    _ = 2 * st.tolerance := by ring

/-- Three un-grouped frames and a fresh sequencer, with tolerance 1:
A@100, B@99, C@101 buffered for three cameras. -/
def c4state : FrameSyncTimestampService.State :=
  { initial_camera_data := [("A", ⟨0, 100⟩), ("B", ⟨2, 101⟩), ("C", ⟨1, 102⟩)],
    current_camera_data := [],
    frames_buffer := [⟨100, 1, "A", 100, none⟩, ⟨99, 1, "B", 101, none⟩,
      ⟨101, 1, "C", 102, none⟩],
    fps := 1, retention_time := 1000, latency_threshold := 0, tolerance := 1,
    frame_seq := FrameSequencingService.init Unit FrameSyncTimestampService.TFrame 5 0 }

/-- Witness for C4 (amended) at the three-camera state with τ = 1. -/
theorem C4_group_tolerance_anchor_witness :
    (0 : ℚ) ≤ c4state.tolerance ∧
    c4state.frame_seq.grouped_frames_buffer = [] ∧
    (∀ g ∈ (FrameSyncTimestampService.synchronize 103 c4state).1,
      ∃ a : ℚ, (∀ x ∈ g, |x.frame_timestamp - a| ≤ c4state.tolerance) ∧
        ∀ x ∈ g, ∀ y ∈ g,
          |x.frame_timestamp - y.frame_timestamp| ≤ 2 * c4state.tolerance) :=
  ⟨by decide, rfl, C4_group_tolerance_anchor c4state 103 (by decide) rfl⟩

end TimestampSyncClaims

section NumberSyncClaims

/-- Number-mode configuration of the end-to-end scenarios: fps 30, default
retention 60 s, default latency threshold 60 s, backlog interval 5 s. -/
def nCfg : FrameSyncConfiguration := ⟨30, 60, 60, 5⟩

/-- The two-camera lockstep input of scenario E1, collected in arrival order:
(A, frame 1, t=1.00), (B, 1, 1.01), (A, 2, 1.03), (B, 2, 1.04). -/
def c1state : FrameSyncNumberService.State :=
  FrameSyncNumberService.collect 2 (104/100) 30 "B"
    (FrameSyncNumberService.collect 2 (103/100) 30 "A"
      (FrameSyncNumberService.collect 1 (101/100) 30 "B"
        (FrameSyncNumberService.collect 1 1 30 "A"
          (FrameSyncNumberService.init nCfg 0))))

/-- C1: on the E1 lockstep input both frame numbers have one record from each
of the two cameras, and the grouping pass of `synchronize` does mark every
buffered record as grouped — yet NOTHING is handed to the callback.  The
completed groups are only appended to the write-only local `grouped_frames`
list; number mode never calls `frame_seq.collect_group`, so the
`next_group` drain runs over an always-empty group buffer and the delivered
list is empty instead of the expected [{A1, B1}, {A2, B2}]. -/
theorem C1_number_sync_delivers_nothing :
    (∀ f ∈ FrameSyncNumberService.groupPhase c1state.frames_buffer
        c1state.initial_camera_data.length, f.grouped = true) ∧
    (FrameSyncNumberService.synchronize 2 c1state).1 = [] := by
  decide

/-- The claim's rate-control formula taken literally:
`expected_frame = ⌊elapsed × fps⌋`, `delta = expected_frame − frame_number`;
`(delta, SKIP)` when `delta > 0`, `(|delta|/fps, WAIT)` when `delta < 0`,
`(0, SKIP)` when `delta = 0`. -/
def claimedSamplingFloor (camera_id : String) (st : FrameSyncNumberService.State) :
    Except PyError (ℚ × Bool) :=
  match getAssoc camera_id st.current_camera_data with
  | none => .error .keyError
  | some camera_data =>
    let expected_frame : ℤ := ratFloor (camera_data.elapsed_time * (st.fps : ℚ))
    let delta : ℤ := expected_frame - (camera_data.frame_number : ℤ)
    if 0 < delta then .ok ((delta : ℚ), true)
    else if delta < 0 then
      if st.fps = 0 then .error .zeroDivisionError
      else .ok (((-delta : ℤ) : ℚ) / (st.fps : ℚ), false)
    else .ok (0, true)

/-- The claim's formula amended minimally: `int()` truncates toward zero
(`pyTrunc`), which agrees with the floor only for non-negative `elapsed × fps`. -/
def claimedSamplingTrunc (camera_id : String) (st : FrameSyncNumberService.State) :
    Except PyError (ℚ × Bool) :=
  match getAssoc camera_id st.current_camera_data with
  | none => .error .keyError
  | some camera_data =>
    let expected_frame : ℤ := pyTrunc (camera_data.elapsed_time * (st.fps : ℚ))
    let delta : ℤ := expected_frame - (camera_data.frame_number : ℤ)
    if 0 < delta then .ok ((delta : ℚ), true)
    else if delta < 0 then
      if st.fps = 0 then .error .zeroDivisionError
      else .ok (((-delta : ℤ) : ℚ) / (st.fps : ℚ), false)
    else .ok (0, true)

/-- Camera state with negative elapsed time: camera A's first frame has
timestamp 1.0 (fixing `start_time = 1.0`), its next frame number 1 carries
timestamp 0.95, so `elapsed_time = −0.05`. -/
def c9state : FrameSyncNumberService.State :=
  FrameSyncNumberService.collect 1 (95/100) 30 "A"
    (FrameSyncNumberService.collect 1 1 30 "A" (FrameSyncNumberService.init nCfg 0))

/-- C9 counterexample: at elapsed = −0.05 and fps = 30, `int(−1.5)` truncates
to −1 whereas `⌊−1.5⌋ = −2`, so the code returns a wait of 2/30 = 1/15 s
while the claim's floor-based formula mandates 3/30 = 1/10 s: `sampling` does
not compute `expected_frame = floor(elapsed × fps)`. -/
theorem sampling_eval (st : FrameSyncNumberService.State) (camera_id : String)
    (cd : FrameSyncNumberService.NCameraData)
    (hcd : getAssoc camera_id st.current_camera_data = some cd) :
    FrameSyncNumberService.sampling camera_id st =
      (let expected_frame : ℤ := pyTrunc (cd.elapsed_time * (st.fps : ℚ))
       let skip_count : ℤ := expected_frame - (cd.frame_number : ℤ)
       if skip_count < 0 then
         if st.fps = 0 then .error .zeroDivisionError
         else .ok (pyAbs ((skip_count : ℚ) / (st.fps : ℚ)), false)
       else .ok ((max skip_count 0 : ℤ), true)) := by
  unfold FrameSyncNumberService.sampling
  rw [hcd]

theorem claimedSamplingFloor_eval (st : FrameSyncNumberService.State)
    (camera_id : String) (cd : FrameSyncNumberService.NCameraData)
    (hcd : getAssoc camera_id st.current_camera_data = some cd) :
    claimedSamplingFloor camera_id st =
      (let expected_frame : ℤ := ratFloor (cd.elapsed_time * (st.fps : ℚ))
       let delta : ℤ := expected_frame - (cd.frame_number : ℤ)
       if 0 < delta then .ok ((delta : ℚ), true)
       else if delta < 0 then
         if st.fps = 0 then .error .zeroDivisionError
         else .ok (((-delta : ℤ) : ℚ) / (st.fps : ℚ), false)
       else .ok (0, true)) := by
  unfold claimedSamplingFloor
  rw [hcd]

theorem C9_counterexample_floor :
    FrameSyncNumberService.sampling "A" c9state = .ok (1/15, false) ∧
    claimedSamplingFloor "A" c9state = .ok (1/10, false) ∧
    ((1/15 : ℚ), false) ≠ ((1/10 : ℚ), false) := by
  have hcd : getAssoc "A" c9state.current_camera_data = some ⟨1, 95/100, -(1/20)⟩ := by
    norm_num [c9state, FrameSyncNumberService.collect, FrameSyncNumberService.init,
      nCfg, getAssoc, setAssoc]
  have hfps : c9state.fps = 30 := by
    norm_num [c9state, FrameSyncNumberService.collect, FrameSyncNumberService.init, nCfg]
  refine ⟨?_, ?_, by norm_num⟩
  · rw [sampling_eval _ _ _ hcd, hfps]
    rw [show pyTrunc ((-(1/20) : ℚ) * ((30 : ℕ) : ℚ)) = -1 from
      pyTrunc_eval_neg (by push_cast; norm_num) (by push_cast; norm_num)
        (by push_cast; norm_num)]
    norm_num [pyAbs]
  · rw [claimedSamplingFloor_eval _ _ _ hcd, hfps]
    rw [show ratFloor ((-(1/20) : ℚ) * ((30 : ℕ) : ℚ)) = -2 from
      ratFloor_eval (by push_cast; norm_num) (by push_cast; norm_num)]
    norm_num

/-- The E5 state: camera A's stream starts at timestamp 0 and then reports
frame 45 at t = 1.0 with fps 30. -/
def c9e5state : FrameSyncNumberService.State :=
  FrameSyncNumberService.collect 45 1 30 "A"
    (FrameSyncNumberService.collect 1 0 30 "A" (FrameSyncNumberService.init nCfg 0))

/-- C9 (amended): for every camera with recorded state, `sampling` computes
`expected_frame = int(elapsed × fps)` truncated toward zero (equal to the
floor whenever `elapsed × fps ≥ 0`) and `delta = expected_frame −
frame_number`, returning `(delta, SKIP)` when `delta > 0`, `(|delta|/fps,
WAIT)` when `delta < 0`, `(0, SKIP)` when `delta = 0`; hence WAIT exactly
when the camera is ahead of its truncation-expected frame.  In particular on
the E5 state (elapsed 1.0, fps 30, frame 45) it returns (0.5 s, WAIT). -/
theorem C9_sampling_matches_trunc_formula (camera_id : String)
    (st : FrameSyncNumberService.State) :
    FrameSyncNumberService.sampling camera_id st = claimedSamplingTrunc camera_id st ∧
    FrameSyncNumberService.sampling "A" c9e5state = .ok (1/2, false) := by
  constructor
  · unfold FrameSyncNumberService.sampling claimedSamplingTrunc
    cases hg : getAssoc camera_id st.current_camera_data with
    | none => rfl
    | some camera_data =>
      simp only
      set delta : ℤ :=
        pyTrunc (camera_data.elapsed_time * (st.fps : ℚ)) - (camera_data.frame_number : ℤ)
        with hdelta
      rcases lt_trichotomy delta 0 with h | h | h
      · have h0 : ¬ 0 < delta := not_lt.mpr (le_of_lt h)
        rw [if_pos h, if_neg h0, if_pos h]
        by_cases hf : st.fps = 0
        · rw [if_pos hf, if_pos hf]
        · have hfpos : (0 : ℚ) < (st.fps : ℚ) := by
            exact_mod_cast Nat.pos_of_ne_zero hf
          have hdq : ((delta : ℤ) : ℚ) < 0 := by exact_mod_cast h
          have hq : ((delta : ℤ) : ℚ) / (st.fps : ℚ) < 0 :=
            div_neg_of_neg_of_pos hdq hfpos
          rw [if_neg hf, if_neg hf]
          unfold pyAbs
          rw [if_pos hq]
          push_cast
          rw [neg_div]
      · rw [if_neg (by simp [h]), if_neg (by simp [h]), if_neg (by simp [h])]
        simp [h]
      · have h0 : ¬ delta < 0 := not_lt.mpr (le_of_lt h)
        rw [if_neg h0, if_pos h]
        rw [max_eq_left (le_of_lt h)]
  · have hcd5 : getAssoc "A" c9e5state.current_camera_data = some ⟨45, 1, 1⟩ := by
      norm_num [c9e5state, FrameSyncNumberService.collect, FrameSyncNumberService.init,
        nCfg, getAssoc, setAssoc]
    have hfps5 : c9e5state.fps = 30 := by
      norm_num [c9e5state, FrameSyncNumberService.collect, FrameSyncNumberService.init, nCfg]
    rw [sampling_eval _ _ _ hcd5, hfps5]
    rw [show pyTrunc ((1 : ℚ) * ((30 : ℕ) : ℚ)) = 30 from
      pyTrunc_eval_nonneg (by push_cast; norm_num) (by push_cast; norm_num)
        (by push_cast; norm_num)]
    norm_num [pyAbs]

theorem markGroup_entry_time_none {numCameras fn : Nat}
    {buffer : List FrameSyncNumberService.NFrame}
    (h : ∀ f ∈ buffer, f.entry_time = none) :
    ∀ f ∈ FrameSyncNumberService.markGroup numCameras buffer fn, f.entry_time = none := by
  intro f hf
  unfold FrameSyncNumberService.markGroup at hf
  simp only [] at hf
  split at hf
  · rcases List.mem_map.mp hf with ⟨g, hg, hfg⟩
    by_cases hgf : g.frame_number = fn
    · rw [if_pos hgf] at hfg
      rw [← hfg]
      exact h g hg
    · rw [if_neg hgf] at hfg
      rw [← hfg]
      exact h g hg
  · exact h f hf

theorem foldl_markGroup_entry_time_none (numCameras : Nat) :
    ∀ (ns : List Nat) (buffer : List FrameSyncNumberService.NFrame),
      (∀ f ∈ buffer, f.entry_time = none) →
      ∀ f ∈ ns.foldl (FrameSyncNumberService.markGroup numCameras) buffer,
        f.entry_time = none
  | [], _, h => by simpa using h
  | n :: ns, buffer, h => by
    simp only [List.foldl_cons]
    exact foldl_markGroup_entry_time_none numCameras ns _ (markGroup_entry_time_none h)

theorem groupPhase_entry_time_none {buffer : List FrameSyncNumberService.NFrame}
    {numCameras : Nat} (h : ∀ f ∈ buffer, f.entry_time = none) :
    ∀ f ∈ FrameSyncNumberService.groupPhase buffer numCameras, f.entry_time = none := by
  unfold FrameSyncNumberService.groupPhase
  exact foldl_markGroup_entry_time_none numCameras _ buffer h

theorem cleanup_of_entry_time_none (now retention : ℚ) :
    ∀ l : List FrameSyncNumberService.NFrame, (∀ f ∈ l, f.entry_time = none) →
      FrameSyncNumberService.cleanup now retention l =
        if l.any (fun f => ! f.grouped) then .error .typeError else .ok []
  | [], _ => by simp [FrameSyncNumberService.cleanup]
  | f :: rest, h => by
    have hf : f.entry_time = none := h f (List.mem_cons_self f rest)
    have hrest : ∀ g ∈ rest, g.entry_time = none := fun g hg =>
      h g (List.mem_cons_of_mem f hg)
    by_cases hg : f.grouped
    · simp [FrameSyncNumberService.cleanup, hg,
        cleanup_of_entry_time_none now retention rest hrest]
    · simp [FrameSyncNumberService.cleanup, hg, hf]

/-- C10: number-mode `collect` never stores an `entry_time` on buffered
records (every record it appends carries none, and existing records are
untouched), so `synchronize` raises `TypeError` from the retention filter —
which evaluates `time.time() - None` — exactly when the buffer still holds an
un-grouped record after the grouping pass; when every buffered record was
grouped in the pass, the filter drops them all without touching `entry_time`
and no error occurs. -/
theorem C10_cleanup_type_error (st : FrameSyncNumberService.State) (now : ℚ)
    (hall : ∀ f ∈ st.frames_buffer, f.entry_time = none) :
    (∀ fn ts fps cam,
      ∀ f ∈ (FrameSyncNumberService.collect fn ts fps cam st).frames_buffer,
        f.entry_time = none) ∧
    ((FrameSyncNumberService.synchronize now st).2 = .error .typeError ↔
      ∃ f ∈ FrameSyncNumberService.groupPhase st.frames_buffer
          st.initial_camera_data.length, f.grouped = false) := by
  constructor
  · intro fn ts fps cam f hf
    unfold FrameSyncNumberService.collect at hf
    simp only [List.mem_append, List.mem_singleton] at hf
    rcases hf with hf | hf
    · exact hall f hf
    · rw [hf]
  · have hg : ∀ f ∈ FrameSyncNumberService.groupPhase st.frames_buffer
        st.initial_camera_data.length, f.entry_time = none :=
      groupPhase_entry_time_none hall
    unfold FrameSyncNumberService.synchronize
    simp only []
    rw [cleanup_of_entry_time_none _ _ _ hg]
    by_cases hany : (FrameSyncNumberService.groupPhase st.frames_buffer
        st.initial_camera_data.length).any (fun f => ! f.grouped)
    · rw [if_pos hany]
      simp only [List.any_eq_true, Bool.not_eq_true'] at hany
      simpa using hany
    · rw [if_neg hany]
      simp only [List.any_eq_true, Bool.not_eq_true'] at hany
      push_neg at hany
      simp only [Bool.not_eq_false] at hany
      constructor
      · intro hcontra
        exact absurd hcontra (by simp)
      · rintro ⟨f, hf, hgf⟩
        exact absurd (hany f hf) (by rw [hgf]; exact Bool.false_ne_true)

/-- State with two cameras whose frames never complete a group: camera A
contributed frame 1 and camera B frame 2 only. -/
def c10state : FrameSyncNumberService.State :=
  FrameSyncNumberService.collect 2 2 30 "B"
    (FrameSyncNumberService.collect 1 1 30 "A" (FrameSyncNumberService.init nCfg 0))

/-- Witness for C10 at a state with an un-grouped buffered record. -/
theorem C10_cleanup_type_error_witness :
    (∀ f ∈ c10state.frames_buffer, f.entry_time = none) ∧
    ((∀ fn ts fps cam,
        ∀ f ∈ (FrameSyncNumberService.collect fn ts fps cam c10state).frames_buffer,
          f.entry_time = none) ∧
     ((FrameSyncNumberService.synchronize 5 c10state).2 = .error .typeError ↔
       ∃ f ∈ FrameSyncNumberService.groupPhase c10state.frames_buffer
           c10state.initial_camera_data.length, f.grouped = false)) :=
  ⟨by decide, C10_cleanup_type_error c10state 5 (by decide)⟩

end NumberSyncClaims

section ConsumerClaims

/-- C7 (amended): in every successful iteration of the embedded consumer
loop, a message handed to the synchronous callback is followed by the
`commit()` at the end of the iteration, but a message consumed by a skip
decision is NOT committed — the `skip_count > 0` branch decrements the
counter and `continue`s before the commit statement is reached. -/
theorem C7_commit_after_callback_not_after_skip (cfg : MessageConsumer.LoopConfig)
    (cb : MessageConsumer.KMessage → Except PyError Unit)
    (st : MessageConsumer.LoopState) (record : MessageConsumer.KRecord)
    (st' : MessageConsumer.LoopState) (ev : MessageConsumer.StepEvent)
    (h : MessageConsumer.consumeStep cfg cb st record = .ok (st', ev)) :
    (ev.delivered = true → ev.committed = true) ∧
    (ev.skip_consumed = true → ev.committed = false) := by
  unfold MessageConsumer.consumeStep at h
  simp only [] at h
  repeat' split at h
  all_goals
    first
      | (simp only [Except.ok.injEq, Prod.mk.injEq] at h
         rcases h with ⟨-, rfl⟩
         constructor <;> simp)
      | simp at h

/-- Witness for C7 (amended): a no-sync iteration that delivers and commits. -/
theorem C7_commit_after_callback_not_after_skip_witness :
    MessageConsumer.consumeStep ⟨none, none⟩ (fun _ => .ok ()) ⟨0, none⟩
        ⟨"A", .ok ⟨1, 0, 30, "A"⟩⟩ =
      .ok (⟨0, none⟩, ⟨false, false, true, true⟩) ∧
    (((⟨false, false, true, true⟩ : MessageConsumer.StepEvent).delivered = true →
        (⟨false, false, true, true⟩ : MessageConsumer.StepEvent).committed = true) ∧
     ((⟨false, false, true, true⟩ : MessageConsumer.StepEvent).skip_consumed = true →
        (⟨false, false, true, true⟩ : MessageConsumer.StepEvent).committed = false)) :=
  ⟨by decide,
   C7_commit_after_callback_not_after_skip ⟨none, none⟩ (fun _ => .ok ()) ⟨0, none⟩
     ⟨"A", .ok ⟨1, 0, 30, "A"⟩⟩ ⟨0, none⟩ ⟨false, false, true, true⟩ (by decide)⟩

/-- Number-sync consumer configuration for the skip run: fps 30. -/
def c7cfg : MessageConsumer.LoopConfig := ⟨none, some nCfg⟩

/-- Camera A reports frame 1 at t=100, frame 2 at t=101 (one second late, so
sampling orders 28 frames skipped), then frame 3 at t=102. -/
def c7recs : List MessageConsumer.KRecord :=
  [⟨"A", .ok ⟨1, 100, 30, "A"⟩⟩, ⟨"A", .ok ⟨2, 101, 30, "A"⟩⟩,
   ⟨"A", .ok ⟨3, 102, 30, "A"⟩⟩]

/-- C7 counterexample: in the three-message run the first two messages are
delivered and committed, the second leaves skip_count = 28, and the third is
consumed by the skip decision WITHOUT being committed — refuting "the bus
offset is committed after the message is fully handled … when the message is
consumed by a skip decision". -/
theorem C7_counterexample_skip_not_committed :
    (MessageConsumer.consumerRun c7cfg (fun _ => .ok ()) ⟨0, none⟩ c7recs).1 =
      [⟨false, false, true, true⟩, ⟨false, false, true, true⟩,
       ⟨false, true, false, false⟩] ∧
    (⟨false, true, false, false⟩ : MessageConsumer.StepEvent).skip_consumed = true ∧
    (⟨false, true, false, false⟩ : MessageConsumer.StepEvent).committed = false := by
  refine ⟨?_, rfl, rfl⟩
  norm_num [c7recs, c7cfg, nCfg, MessageConsumer.consumerRun, MessageConsumer.consumeStep,
    MessageConsumer.ratSkipCount, FrameSyncNumberService.init, FrameSyncNumberService.collect,
    FrameSyncNumberService.sampling, FrameSequencingService.init, getAssoc, setAssoc, pyAbs,
    Rat.num_intCast,
    (show pyTrunc (0 : ℚ) = 0 from
      pyTrunc_eval_nonneg (by norm_num) (by norm_num) (by norm_num)),
    (show pyTrunc (30 : ℚ) = 30 from
      pyTrunc_eval_nonneg (by norm_num) (by norm_num) (by norm_num)),
    (show ((28 : ℤ) ⊔ 0) = 28 from max_eq_left (by norm_num)),
    (show ((30 : ℤ) - 2) = 28 from by norm_num)]

/-- C8 (amended): when an iteration of the embedded consumer loop raises —
the deserializer fails to decode the message, the synchronous callback
raises, or `sampling` raises — the `for` loop has no per-message handler: the
error escapes, the loop run terminates immediately with that error, the
failing message's offset is never committed, and the remaining messages are
never consumed (the outer handler logs, re-raises, and the `finally` path
closes the consumer). -/
theorem C8_per_message_failure_terminates (cfg : MessageConsumer.LoopConfig)
    (cb : MessageConsumer.KMessage → Except PyError Unit)
    (st : MessageConsumer.LoopState) (record : MessageConsumer.KRecord)
    (rest : List MessageConsumer.KRecord) (e : PyError)
    (h : MessageConsumer.consumeStep cfg cb st record = .error e) :
    MessageConsumer.consumerRun cfg cb st (record :: rest) = ([], .error e) := by
  unfold MessageConsumer.consumerRun
  rw [h]

/-- Witness for C8 (amended): a callback that raises on its first message. -/
theorem C8_per_message_failure_terminates_witness :
    MessageConsumer.consumeStep ⟨none, none⟩ (fun _ => .error .typeError) ⟨0, none⟩
        ⟨"A", .ok ⟨1, 0, 30, "A"⟩⟩ = .error .typeError ∧
    MessageConsumer.consumerRun ⟨none, none⟩ (fun _ => .error .typeError) ⟨0, none⟩
        [⟨"A", .ok ⟨1, 0, 30, "A"⟩⟩, ⟨"A", .ok ⟨2, 1, 30, "A"⟩⟩] =
      ([], .error .typeError) :=
  ⟨by decide,
   C8_per_message_failure_terminates ⟨none, none⟩ (fun _ => .error .typeError) ⟨0, none⟩
     ⟨"A", .ok ⟨1, 0, 30, "A"⟩⟩ [⟨"A", .ok ⟨2, 1, 30, "A"⟩⟩] .typeError (by decide)⟩

/-- C8 counterexample: with the loop's only `try`/`except` wrapped around the
WHOLE loop, a callback failure on the second message terminates the run after
one completed iteration: the second message is neither committed nor
recovered from, and the third message is never consumed — refuting "its
offset IS committed, and the loop continues consuming subsequent messages". -/
theorem C8_counterexample_failure_stops_loop :
    MessageConsumer.consumerRun ⟨none, none⟩
      (fun m => if m.frame_number = 2 then .error .typeError else .ok ())
      ⟨0, none⟩
      [⟨"A", .ok ⟨1, 0, 30, "A"⟩⟩, ⟨"A", .ok ⟨2, 1, 30, "A"⟩⟩,
       ⟨"A", .ok ⟨3, 2, 30, "A"⟩⟩] =
    ([⟨false, false, true, true⟩], .error .typeError) := by
  decide

end ConsumerClaims
